import Mathlib

/-!
A shallow embedding of `src/core/SkStrikeSpec.cpp`: the variant constructors
of `SkStrikeSpecStorage` (MakeMask, MakePath, MakeSourceFallback,
MakeCanonicalized, MakeDefault, MakePDFVector, MakeSDFT), the shared
`commonSetup`, and the strike-cache resolvers.  Scalars (`SkScalar`, a float
in the library) are embedded as exact rationals, so the scale-ratio
arithmetic is exact.  Collaborators that live outside this translation unit
(SkFont and SkPaint methods, the descriptor factory, the draw-as-paths
policy, the distance-field policy, the caches) are modelled from the
specification where its words pin them down, and are taken as parameters
where the specification treats them as external policy.
-/

namespace Skia

/-- SkScalar, embedded as an exact rational number. -/
abbrev SkScalar := ℚ

/-- SkScalarFloorToScalar: the floor of a scalar, returned as a scalar. -/
def SkScalarFloorToScalar (x : SkScalar) : SkScalar := (⌊x⌋ : ℚ)

/-- SkPixelGeometry enumeration of SkSurfaceProps. -/
inductive SkPixelGeometry where
  | kUnknown
  | kRGB_H
  | kBGR_H
  | kRGB_V
  | kBGR_V
deriving DecidableEq

/-- SkSurfaceProps: flag word plus pixel geometry. -/
structure SkSurfaceProps where
  fFlags : Nat
  fPixelGeometry : SkPixelGeometry
deriving DecidableEq

/-- Modelled from the spec: the fixed legacy surface-properties value used by
the metrics-only canonical form (the library's
`SkSurfaceProps(SkSurfaceProps::kLegacyFontHost_InitType)` constant; its
construction lives outside this translation unit). -/
def legacyFontHostProps : SkSurfaceProps :=
  { fFlags := 0, fPixelGeometry := SkPixelGeometry.kRGB_H }

/-- SkFontHinting enumeration. -/
inductive SkFontHinting where
  | kNone
  | kSlight
  | kNormal
  | kFull
deriving DecidableEq

/-- SkFont::Edging enumeration. -/
inductive SkFontEdging where
  | kAlias
  | kAntiAlias
  | kSubpixelAntiAlias
deriving DecidableEq

/-- SkPaint::Style enumeration. -/
inductive SkPaintStyle where
  | kFill
  | kStroke
  | kStrokeAndFill
deriving DecidableEq

/-- Opaque identity of a mask filter object (a reference-counted effect). -/
abbrev SkMaskFilter := Nat

/-- Opaque identity of a path effect object (a reference-counted effect). -/
abbrev SkPathEffect := Nat

/-- SkTypeface: an opaque identity plus the units-per-em it reports. -/
structure SkTypeface where
  fUniqueID : Nat
  fUnitsPerEm : Int
deriving DecidableEq

/-- SkTypeface::getUnitsPerEm. -/
def SkTypeface.getUnitsPerEm (t : SkTypeface) : Int := t.fUnitsPerEm

/-- Modelled from the spec: the library default typeface that replaces a null
or degenerate typeface ("typeface resolution always succeeds by falling back
to a default"). -/
def defaultTypeface : SkTypeface := { fUniqueID := 0, fUnitsPerEm := 2048 }

/-- SkPaint, restricted to the state this core consumes: the two effect
references (§4.2 of the spec), the style and the color. -/
structure SkPaint where
  fMaskFilter : Option SkMaskFilter
  fPathEffect : Option SkPathEffect
  fStyle : SkPaintStyle
  fColor : Nat
deriving DecidableEq

/-- A default-constructed SkPaint: no effects, fill style, opaque black. -/
def defaultPaint : SkPaint :=
  { fMaskFilter := none, fPathEffect := none
    fStyle := SkPaintStyle.kFill, fColor := 0xFF000000 }

/-- SkFont: typeface reference, size, horizontal scale, skew, the subpixel
positioning flag, hinting mode and edging mode. -/
structure SkFont where
  fTypeface : Option SkTypeface
  fSize : SkScalar
  fScaleX : SkScalar
  fSkewX : SkScalar
  fSubpixel : Bool
  fHinting : SkFontHinting
  fEdging : SkFontEdging
deriving DecidableEq

/-- SkFont::setSize. -/
def SkFont.setSize (f : SkFont) (s : SkScalar) : SkFont := { f with fSize := s }

/-- SkFont::setSubpixel. -/
def SkFont.setSubpixel (f : SkFont) (b : Bool) : SkFont := { f with fSubpixel := b }

/-- SkFont::setHinting. -/
def SkFont.setHinting (f : SkFont) (h : SkFontHinting) : SkFont := { f with fHinting := h }

/-- SkFont::setEdging. -/
def SkFont.setEdging (f : SkFont) (e : SkFontEdging) : SkFont := { f with fEdging := e }

/-- SkFont::setTypeface. -/
def SkFont.setTypeface (f : SkFont) (t : Option SkTypeface) : SkFont := { f with fTypeface := t }

/-- Modelled from the spec: `SkFont::refTypefaceOrDefault` — a null typeface
is replaced by the library default, never surfaced as an error (§6, §7). -/
def SkFont.refTypefaceOrDefault (f : SkFont) : SkTypeface :=
  f.fTypeface.getD defaultTypeface

/-- A default-constructed SkFont (the library's defaults: size 12, unit
scale, no skew, no subpixel, normal hinting, anti-aliased edging). -/
def defaultFont : SkFont :=
  { fTypeface := none, fSize := 12, fScaleX := 1, fSkewX := 0
    fSubpixel := false, fHinting := SkFontHinting.kNormal
    fEdging := SkFontEdging.kAntiAlias }

/-- Modelled from the spec: the library-defined canonical text size at which
path-variant strikes are stored ("library-defined fixed size optimized for
hinting-free outline storage", §4.1; 64 in the library). -/
def kCanonicalTextSizeForPaths : SkScalar := 64

/-- Modelled from the spec: `SkFont::setupForAsPaths` forces the font into
its render-as-paths canonical form — the library-defined fixed size with
hinting disabled — and returns the strike-to-source ratio
`requestedSize / internalSize` (§4.1 path fallback, §4.4 Path row).  The
paint adjustments the library version performs are not specified by the
spec and no claim depends on them, so the paint is left to the caller. -/
def SkFont.setupForAsPaths (f : SkFont) : SkFont × SkScalar :=
  ((f.setHinting SkFontHinting.kNone).setSize kCanonicalTextSizeForPaths,
    f.fSize / kCanonicalTextSizeForPaths)

/-- A 2D affine device matrix. -/
structure SkMatrix where
  scaleX : SkScalar
  skewX : SkScalar
  transX : SkScalar
  skewY : SkScalar
  scaleY : SkScalar
  transY : SkScalar
deriving DecidableEq

/-- SkMatrix::I, the identity matrix. -/
def SkMatrix.I : SkMatrix :=
  { scaleX := 1, skewX := 0, transX := 0, skewY := 0, scaleY := 1, transY := 0 }

/-- SkScalerContextFlags: gamma-correction / contrast-boost flag sets. -/
inductive SkScalerContextFlags where
  | kNone
  | kFakeGamma
  | kBoostContrast
  | kFakeGammaAndBoostContrast
deriving DecidableEq

/-- Modelled from the spec: a descriptor is a deterministic, byte-exact
encoding of all rendering-affecting parameters (§3); it is represented here
as the normalized input tuple itself, which is injective and
deterministic. -/
structure SkDescriptor where
  fFont : SkFont
  fPaint : SkPaint
  fSurfaceProps : SkSurfaceProps
  fScalerContextFlags : SkScalerContextFlags
  fDeviceMatrix : SkMatrix
deriving DecidableEq

/-- SkScalerContextEffects: the effects bundle passed alongside the
descriptor (path effect first, mask filter second, as in the struct). -/
structure SkScalerContextEffects where
  fPathEffect : Option SkPathEffect
  fMaskFilter : Option SkMaskFilter
deriving DecidableEq

/-- Modelled from the spec: `SkScalerContext::CreateDescriptorAndEffectsUsingPaint`
canonicalizes the normalized inputs into a descriptor (§4.3) and extracts
the paint's mask filter and path effect as the effects bundle (§4.2). -/
def CreateDescriptorAndEffectsUsingPaint
    (font : SkFont) (paint : SkPaint) (props : SkSurfaceProps)
    (flags : SkScalerContextFlags) (matrix : SkMatrix) :
    SkDescriptor × SkScalerContextEffects :=
  ({ fFont := font, fPaint := paint, fSurfaceProps := props
     fScalerContextFlags := flags, fDeviceMatrix := matrix },
   { fPathEffect := paint.fPathEffect, fMaskFilter := paint.fMaskFilter })

/-- SkStrikeSpecStorage: descriptor, the two captured effect references, the
resolved typeface, and the strike-to-source ratio. -/
structure SkStrikeSpecStorage where
  fAutoDescriptor : Option SkDescriptor
  fMaskFilter : Option SkMaskFilter
  fPathEffect : Option SkPathEffect
  fTypeface : Option SkTypeface
  fStrikeToSourceRatio : SkScalar
deriving DecidableEq

/-- A default-constructed SkStrikeSpecStorage: empty descriptor, null effect
and typeface references, and ratio 1 (the spec's stated default). -/
def SkStrikeSpecStorage.init : SkStrikeSpecStorage :=
  { fAutoDescriptor := none, fMaskFilter := none, fPathEffect := none
    fTypeface := none, fStrikeToSourceRatio := 1 }

/-- SkStrikeSpecStorage::commonSetup: create the descriptor and effects from
the normalized inputs, capture the effect references, and resolve the
typeface (falling back to the default). -/
def SkStrikeSpecStorage.commonSetup (storage : SkStrikeSpecStorage)
    (font : SkFont) (paint : SkPaint) (props : SkSurfaceProps)
    (flags : SkScalerContextFlags) (matrix : SkMatrix) : SkStrikeSpecStorage :=
  let de := CreateDescriptorAndEffectsUsingPaint font paint props flags matrix
  { storage with
    fAutoDescriptor := some de.1
    fMaskFilter := de.2.fMaskFilter
    fPathEffect := de.2.fPathEffect
    fTypeface := some font.refTypefaceOrDefault }

/-- SkStrikeSpecStorage::MakeMask. -/
def MakeMask (font : SkFont) (paint : SkPaint) (props : SkSurfaceProps)
    (flags : SkScalerContextFlags) (deviceMatrix : SkMatrix) : SkStrikeSpecStorage :=
  SkStrikeSpecStorage.init.commonSetup font paint props flags deviceMatrix

/-- SkStrikeSpecStorage::MakePath: canonicalize the font for path rendering,
record the ratio, disable subpixel positioning, and build the descriptor at
the identity matrix. -/
def MakePath (font : SkFont) (paint : SkPaint) (props : SkSurfaceProps)
    (flags : SkScalerContextFlags) : SkStrikeSpecStorage :=
  let pathPaint := paint
  let p := font.setupForAsPaths
  let pathFont := p.1.setSubpixel false
  SkStrikeSpecStorage.commonSetup
    { SkStrikeSpecStorage.init with fStrikeToSourceRatio := p.2 }
    pathFont pathPaint props flags SkMatrix.I

/-- Modelled from the spec: `SkStrikeCommon::kSkSideTooBigForAtlas`, the
architectural atlas side limit; the spec fixes the usable dimension after
the bilerp margin of 2 at 4094, so the limit itself is 4096. -/
def kSkSideTooBigForAtlas : SkScalar := 4096

/-- The fallback text size computed by MakeSourceFallback: the requested
size scaled so the longest glyph side fits the atlas, floored.  The usable
atlas dimension is the architectural limit minus 2 for the bilerp pad
around the glyph. -/
def sourceFallbackTextSize (runFontTextSize maxSourceGlyphDimension : SkScalar) : SkScalar :=
  SkScalarFloorToScalar
    ((kSkSideTooBigForAtlas - 2) / maxSourceGlyphDimension * runFontTextSize)

/-- SkStrikeSpecStorage::MakeSourceFallback: scale the text size down so the
glyphs fit the atlas, disable subpixel positioning, record the ratio from
strike size back to source size, and build the descriptor at the identity
matrix. -/
def MakeSourceFallback (font : SkFont) (paint : SkPaint) (props : SkSurfaceProps)
    (flags : SkScalerContextFlags) (maxSourceGlyphDimension : SkScalar) : SkStrikeSpecStorage :=
  let runFontTextSize := font.fSize
  let fallbackTextSize := sourceFallbackTextSize runFontTextSize maxSourceGlyphDimension
  let fallbackFont := (font.setSize fallbackTextSize).setSubpixel false
  SkStrikeSpecStorage.commonSetup
    { SkStrikeSpecStorage.init with
      fStrikeToSourceRatio := runFontTextSize / fallbackTextSize }
    fallbackFont paint props flags SkMatrix.I

/-- SkStrikeSpecStorage::MakeCanonicalized, parametric in the external
draw-as-paths policy (`SkDraw::ShouldDrawTextAsPaths`), which the spec
treats as an external predicate whose decision rule is out of scope. -/
def MakeCanonicalized (shouldDrawTextAsPaths : SkFont → SkPaint → SkMatrix → Bool)
    (font : SkFont) (paint : Option SkPaint) : SkStrikeSpecStorage :=
  let canonicalizedPaint := paint.getD defaultPaint
  if shouldDrawTextAsPaths font canonicalizedPaint SkMatrix.I then
    let p := font.setupForAsPaths
    SkStrikeSpecStorage.commonSetup
      { SkStrikeSpecStorage.init with fStrikeToSourceRatio := p.2 }
      p.1 defaultPaint legacyFontHostProps
      SkScalerContextFlags.kFakeGammaAndBoostContrast SkMatrix.I
  else
    SkStrikeSpecStorage.commonSetup SkStrikeSpecStorage.init
      font canonicalizedPaint legacyFontHostProps
      SkScalerContextFlags.kFakeGammaAndBoostContrast SkMatrix.I

/-- SkStrikeSpecStorage::MakeDefault: canonicalize a default-constructed
font with no paint supplied. -/
def MakeDefault (shouldDrawTextAsPaths : SkFont → SkPaint → SkMatrix → Bool) :
    SkStrikeSpecStorage :=
  MakeCanonicalized shouldDrawTextAsPaths defaultFont none

/-- SkStrikeSpecStorage::MakePDFVector.  The C++ `int* size` out-parameter
is returned as the second component of the result. -/
def MakePDFVector (typeface : SkTypeface) : SkStrikeSpecStorage × Int :=
  let font := ((defaultFont.setHinting SkFontHinting.kNone).setEdging
      SkFontEdging.kAlias).setTypeface (some typeface)
  let unitsPerEm0 := typeface.getUnitsPerEm
  let unitsPerEm := if unitsPerEm0 ≤ 0 then 1024 else unitsPerEm0
  let font := font.setSize (unitsPerEm : SkScalar)
  (SkStrikeSpecStorage.init.commonSetup font defaultPaint
      { fFlags := 0, fPixelGeometry := SkPixelGeometry.kUnknown }
      SkScalerContextFlags.kFakeGammaAndBoostContrast SkMatrix.I,
   unitsPerEm)

/-- GrTextContext::Options, opaque to this core. -/
structure GrTextContextOptions where
  fMinDistanceFieldFontSize : SkScalar
  fMaxDistanceFieldFontSize : SkScalar
deriving DecidableEq

/-- SkStrikeSpecStorage::MakeSDFT, parametric in the three external
distance-field policy functions of GrTextContext (paint transformation,
font transformation with its ratio out-parameter, and the min/max valid
scale range).  Returns the storage together with minScale and maxScale. -/
def MakeSDFT
    (initDistanceFieldPaint : SkPaint → SkPaint)
    (initDistanceFieldFont : SkFont → SkMatrix → GrTextContextOptions → SkFont × SkScalar)
    (initDistanceFieldMinMaxScale : SkScalar → SkMatrix → GrTextContextOptions → SkScalar × SkScalar)
    (font : SkFont) (paint : SkPaint) (props : SkSurfaceProps)
    (deviceMatrix : SkMatrix) (options : GrTextContextOptions) :
    SkStrikeSpecStorage × SkScalar × SkScalar :=
  let dfPaint := initDistanceFieldPaint paint
  let df := initDistanceFieldFont font deviceMatrix options
  let flags := SkScalerContextFlags.kNone
  let mm := initDistanceFieldMinMaxScale font.fSize deviceMatrix options
  (SkStrikeSpecStorage.commonSetup
      { SkStrikeSpecStorage.init with fStrikeToSourceRatio := df.2 }
      df.1 dfPaint props flags SkMatrix.I,
   mm.1, mm.2)

/-- SkStrikeSpecStorage::findOrCreateExclusiveStrike: a const method that
passes the stored descriptor, the captured effects and the stored typeface
to the cache in a single call; the second component records the (unchanged)
storage after the call. -/
def SkStrikeSpecStorage.findOrCreateExclusiveStrike {α : Type}
    (spec : SkStrikeSpecStorage)
    (cache : Option SkDescriptor → SkScalerContextEffects → Option SkTypeface → α) :
    α × SkStrikeSpecStorage :=
  (cache spec.fAutoDescriptor
    { fPathEffect := spec.fPathEffect, fMaskFilter := spec.fMaskFilter }
    spec.fTypeface, spec)

/-- SkStrikeSpecStorage::findOrCreateScopedStrike: same shape as the
exclusive resolver, against the scoped cache interface. -/
def SkStrikeSpecStorage.findOrCreateScopedStrike {α : Type}
    (spec : SkStrikeSpecStorage)
    (cache : Option SkDescriptor → SkScalerContextEffects → Option SkTypeface → α) :
    α × SkStrikeSpecStorage :=
  (cache spec.fAutoDescriptor
    { fPathEffect := spec.fPathEffect, fMaskFilter := spec.fMaskFilter }
    spec.fTypeface, spec)

/-- SkStrikeSpecStorage::findOrCreateGrStrike: a const method that passes
only the stored descriptor to the GPU strike cache (`cache->getStrike`
takes the descriptor alone). -/
def SkStrikeSpecStorage.findOrCreateGrStrike {α : Type}
    (spec : SkStrikeSpecStorage)
    (cache : Option SkDescriptor → α) :
    α × SkStrikeSpecStorage :=
  (cache spec.fAutoDescriptor, spec)

/-- Claim C1: MakeSourceFallback computes the fallback text size as the
floor of (kSkSideTooBigForAtlas - 2) / maxSourceGlyphDimension times the
requested size, stores that size in the descriptor's font, and sets the
ratio to requestedSize / fallbackSize; concretely, requested size 100 with
maxSourceGlyphDimension 500 gives fallback size 818 and ratio 100/818. -/
theorem makeSourceFallback_size_and_ratio
    (font : SkFont) (paint : SkPaint) (props : SkSurfaceProps)
    (flags : SkScalerContextFlags) (d : SkScalar) :
    sourceFallbackTextSize font.fSize d
        = SkScalarFloorToScalar ((kSkSideTooBigForAtlas - 2) / d * font.fSize)
      ∧ (MakeSourceFallback font paint props flags d).fStrikeToSourceRatio
        = font.fSize / sourceFallbackTextSize font.fSize d
      ∧ (MakeSourceFallback font paint props flags d).fAutoDescriptor
        = some { fFont := (font.setSize (sourceFallbackTextSize font.fSize d)).setSubpixel false
                 fPaint := paint, fSurfaceProps := props
                 fScalerContextFlags := flags, fDeviceMatrix := SkMatrix.I }
      ∧ sourceFallbackTextSize 100 500 = 818
      ∧ (MakeSourceFallback (font.setSize 100) paint props flags 500).fStrikeToSourceRatio
        = 100 / 818 := by
  refine ⟨rfl, rfl, rfl, ?_, ?_⟩
  · norm_num [sourceFallbackTextSize, SkScalarFloorToScalar, kSkSideTooBigForAtlas]
  · show (font.setSize 100).fSize / sourceFallbackTextSize (font.setSize 100).fSize 500
        = 100 / 818
    norm_num [sourceFallbackTextSize, SkScalarFloorToScalar, kSkSideTooBigForAtlas,
      SkFont.setSize]

/-- Claim C2 counterexample: for requested text size 100 and
maxSourceGlyphDimension 500000, both strictly positive, the computed
fallback text size is 0 — not strictly positive — and the stored ratio is
the degenerate division 100 / 0. -/
theorem sourceFallback_positivity_counterexample :
    (0 : SkScalar) < 100 ∧ (0 : SkScalar) < 500000
      ∧ ¬ (0 < sourceFallbackTextSize 100 500000)
      ∧ (MakeSourceFallback (defaultFont.setSize 100) defaultPaint
            { fFlags := 0, fPixelGeometry := SkPixelGeometry.kUnknown }
            SkScalerContextFlags.kNone 500000).fStrikeToSourceRatio
          = 100 / 0 := by
  have h0 : sourceFallbackTextSize 100 500000 = 0 := by
    norm_num [sourceFallbackTextSize, SkScalarFloorToScalar, kSkSideTooBigForAtlas]
  refine ⟨by norm_num, by norm_num, by rw [h0]; exact lt_irrefl 0, ?_⟩
  show (defaultFont.setSize 100).fSize
      / sourceFallbackTextSize (defaultFont.setSize 100).fSize 500000 = 100 / 0
  have h1 : (defaultFont.setSize 100).fSize = 100 := rfl
  rw [h1, h0]

/-- Claim C2 (amended): if the requested size and maxSourceGlyphDimension
are strictly positive and maxSourceGlyphDimension is at most
(kSkSideTooBigForAtlas - 2) times the requested size, then the computed
fallback text size is strictly positive and the stored strike-to-source
ratio is a well-defined strictly positive division. -/
theorem sourceFallback_positive
    (font : SkFont) (paint : SkPaint) (props : SkSurfaceProps)
    (flags : SkScalerContextFlags) (d : SkScalar)
    (hS : 0 < font.fSize) (hd : 0 < d)
    (hbound : d ≤ (kSkSideTooBigForAtlas - 2) * font.fSize) :
    0 < sourceFallbackTextSize font.fSize d
      ∧ 0 < (MakeSourceFallback font paint props flags d).fStrikeToSourceRatio := by
  have h1 : (1 : ℚ) ≤ (kSkSideTooBigForAtlas - 2) / d * font.fSize := by
    rw [div_mul_eq_mul_div, le_div_iff₀ hd, one_mul]
    exact hbound
  have hfloor : (1 : ℤ) ≤ ⌊(kSkSideTooBigForAtlas - 2) / d * font.fSize⌋ :=
    Int.le_floor.mpr (by exact_mod_cast h1)
  have hpos : 0 < sourceFallbackTextSize font.fSize d := by
    unfold sourceFallbackTextSize SkScalarFloorToScalar
    have : (0 : ℚ) < ((1 : ℤ) : ℚ) := by norm_num
    calc (0 : ℚ) < ((1 : ℤ) : ℚ) := this
      _ ≤ (⌊(kSkSideTooBigForAtlas - 2) / d * font.fSize⌋ : ℚ) := by exact_mod_cast hfloor
  refine ⟨hpos, ?_⟩
  show 0 < font.fSize / sourceFallbackTextSize font.fSize d
  exact div_pos hS hpos

/-- Witness for the amended C2 theorem at size 100, dimension 500. -/
theorem sourceFallback_positive_witness :
    ((0 : SkScalar) < (defaultFont.setSize 100).fSize
        ∧ (0 : SkScalar) < 500
        ∧ (500 : SkScalar) ≤ (kSkSideTooBigForAtlas - 2) * (defaultFont.setSize 100).fSize)
      ∧ (0 < sourceFallbackTextSize (defaultFont.setSize 100).fSize 500
        ∧ 0 < (MakeSourceFallback (defaultFont.setSize 100) defaultPaint
              { fFlags := 0, fPixelGeometry := SkPixelGeometry.kUnknown }
              SkScalerContextFlags.kNone 500).fStrikeToSourceRatio) :=
  ⟨⟨by norm_num [SkFont.setSize, defaultFont], by norm_num,
      by norm_num [SkFont.setSize, defaultFont, kSkSideTooBigForAtlas]⟩,
    sourceFallback_positive (defaultFont.setSize 100) defaultPaint
      { fFlags := 0, fPixelGeometry := SkPixelGeometry.kUnknown }
      SkScalerContextFlags.kNone 500
      (by norm_num [SkFont.setSize, defaultFont]) (by norm_num)
      (by norm_num [SkFont.setSize, defaultFont, kSkSideTooBigForAtlas])⟩

/-- Claim C3 counterexample: at requested size 0 (a size SkFont admits),
MakePath stores strike-to-source ratio 0, which is not strictly positive,
so the ratio is not strictly positive for every input. -/
theorem makePath_ratio_counterexample :
    (MakePath (defaultFont.setSize 0) defaultPaint
          { fFlags := 0, fPixelGeometry := SkPixelGeometry.kUnknown }
          SkScalerContextFlags.kNone).fStrikeToSourceRatio = 0
      ∧ ¬ (0 < (MakePath (defaultFont.setSize 0) defaultPaint
          { fFlags := 0, fPixelGeometry := SkPixelGeometry.kUnknown }
          SkScalerContextFlags.kNone).fStrikeToSourceRatio) := by
  have h : (MakePath (defaultFont.setSize 0) defaultPaint
      { fFlags := 0, fPixelGeometry := SkPixelGeometry.kUnknown }
      SkScalerContextFlags.kNone).fStrikeToSourceRatio = 0 := by
    show (defaultFont.setSize 0).fSize / kCanonicalTextSizeForPaths = 0
    norm_num [SkFont.setSize, kCanonicalTextSizeForPaths]
  exact ⟨h, by rw [h]; exact lt_irrefl 0⟩

/-- Claim C3 (amended): MakePath disables subpixel positioning, stores the
canonical path size in the descriptor's font, builds the descriptor at the
identity matrix, and records ratio requestedSize / canonicalSize; when the
requested size is strictly positive the ratio is strictly positive, and the
internal size times the ratio reproduces the requested size exactly. -/
theorem makePath_normalization
    (font : SkFont) (paint : SkPaint) (props : SkSurfaceProps)
    (flags : SkScalerContextFlags) (hS : 0 < font.fSize) :
    (MakePath font paint props flags).fAutoDescriptor
        = some { fFont := { fTypeface := font.fTypeface
                            fSize := kCanonicalTextSizeForPaths
                            fScaleX := font.fScaleX, fSkewX := font.fSkewX
                            fSubpixel := false, fHinting := SkFontHinting.kNone
                            fEdging := font.fEdging }
                 fPaint := paint, fSurfaceProps := props
                 fScalerContextFlags := flags, fDeviceMatrix := SkMatrix.I }
      ∧ (MakePath font paint props flags).fStrikeToSourceRatio
          = font.fSize / kCanonicalTextSizeForPaths
      ∧ 0 < (MakePath font paint props flags).fStrikeToSourceRatio
      ∧ kCanonicalTextSizeForPaths * (MakePath font paint props flags).fStrikeToSourceRatio
          = font.fSize := by
  have h64 : (0 : ℚ) < kCanonicalTextSizeForPaths := by
    norm_num [kCanonicalTextSizeForPaths]
  refine ⟨rfl, rfl, ?_, ?_⟩
  · show 0 < font.fSize / kCanonicalTextSizeForPaths
    exact div_pos hS h64
  · show kCanonicalTextSizeForPaths * (font.fSize / kCanonicalTextSizeForPaths) = font.fSize
    rw [mul_comm, div_mul_cancel₀ _ (ne_of_gt h64)]

/-- Witness for the amended C3 theorem at the default font (size 12). -/
theorem makePath_normalization_witness :
    ((0 : SkScalar) < defaultFont.fSize)
      ∧ ((MakePath defaultFont defaultPaint
            { fFlags := 0, fPixelGeometry := SkPixelGeometry.kUnknown }
            SkScalerContextFlags.kNone).fAutoDescriptor
          = some { fFont := { fTypeface := defaultFont.fTypeface
                              fSize := kCanonicalTextSizeForPaths
                              fScaleX := defaultFont.fScaleX, fSkewX := defaultFont.fSkewX
                              fSubpixel := false, fHinting := SkFontHinting.kNone
                              fEdging := defaultFont.fEdging }
                   fPaint := defaultPaint
                   fSurfaceProps := { fFlags := 0, fPixelGeometry := SkPixelGeometry.kUnknown }
                   fScalerContextFlags := SkScalerContextFlags.kNone
                   fDeviceMatrix := SkMatrix.I }
        ∧ (MakePath defaultFont defaultPaint
              { fFlags := 0, fPixelGeometry := SkPixelGeometry.kUnknown }
              SkScalerContextFlags.kNone).fStrikeToSourceRatio
            = defaultFont.fSize / kCanonicalTextSizeForPaths
        ∧ 0 < (MakePath defaultFont defaultPaint
              { fFlags := 0, fPixelGeometry := SkPixelGeometry.kUnknown }
              SkScalerContextFlags.kNone).fStrikeToSourceRatio
        ∧ kCanonicalTextSizeForPaths * (MakePath defaultFont defaultPaint
              { fFlags := 0, fPixelGeometry := SkPixelGeometry.kUnknown }
              SkScalerContextFlags.kNone).fStrikeToSourceRatio
            = defaultFont.fSize) :=
  ⟨by norm_num [defaultFont],
    makePath_normalization defaultFont defaultPaint
      { fFlags := 0, fPixelGeometry := SkPixelGeometry.kUnknown }
      SkScalerContextFlags.kNone (by norm_num [defaultFont])⟩

/-- Claim C4: MakePDFVector disables hinting, uses aliased edging, sets the
font size to the typeface's units-per-em with 1024 substituted for a
non-positive report, writes the resolved value to the size out-parameter,
and builds the descriptor with a default paint, unknown pixel geometry and
the identity matrix; a typeface reporting 0 yields 1024. -/
theorem makePDFVector_defaults (typeface : SkTypeface) :
    (MakePDFVector typeface).2
        = (if typeface.getUnitsPerEm ≤ 0 then 1024 else typeface.getUnitsPerEm)
      ∧ (MakePDFVector typeface).1.fAutoDescriptor
        = some { fFont := { fTypeface := some typeface
                            fSize := (((if typeface.getUnitsPerEm ≤ 0 then 1024
                                else typeface.getUnitsPerEm) : Int) : SkScalar)
                            fScaleX := 1, fSkewX := 0, fSubpixel := false
                            fHinting := SkFontHinting.kNone
                            fEdging := SkFontEdging.kAlias }
                 fPaint := defaultPaint
                 fSurfaceProps := { fFlags := 0, fPixelGeometry := SkPixelGeometry.kUnknown }
                 fScalerContextFlags := SkScalerContextFlags.kFakeGammaAndBoostContrast
                 fDeviceMatrix := SkMatrix.I }
      ∧ (MakePDFVector { fUniqueID := 7, fUnitsPerEm := 0 }).2 = 1024
      ∧ ((MakePDFVector { fUniqueID := 7, fUnitsPerEm := 0 }).1.fAutoDescriptor.map
            fun desc => desc.fFont.fSize) = some 1024 := by
  refine ⟨rfl, rfl, rfl, ?_⟩
  show some (((1024 : Int) : ℚ)) = some (1024 : ℚ)
  norm_num

/-- Claim C5: MakeCanonicalized branches on the external draw-as-paths
predicate evaluated at the identity matrix; in the paths branch the font is
path-normalized, the ratio recorded and the paint reset to default, and
otherwise the result is exactly the Mask variant at the identity matrix
with the legacy surface properties; both branches use the fixed
fake-gamma-and-boost-contrast scaler-context flags. -/
theorem makeCanonicalized_branches
    (shouldDrawTextAsPaths : SkFont → SkPaint → SkMatrix → Bool)
    (font : SkFont) (paint : Option SkPaint) :
    MakeCanonicalized shouldDrawTextAsPaths font paint
      = if shouldDrawTextAsPaths font (paint.getD defaultPaint) SkMatrix.I then
          { fAutoDescriptor := some { fFont := (font.setupForAsPaths).1
                                      fPaint := defaultPaint
                                      fSurfaceProps := legacyFontHostProps
                                      fScalerContextFlags :=
                                        SkScalerContextFlags.kFakeGammaAndBoostContrast
                                      fDeviceMatrix := SkMatrix.I }
            fMaskFilter := none, fPathEffect := none
            fTypeface := some (font.setupForAsPaths).1.refTypefaceOrDefault
            fStrikeToSourceRatio := (font.setupForAsPaths).2 }
        else
          MakeMask font (paint.getD defaultPaint) legacyFontHostProps
            SkScalerContextFlags.kFakeGammaAndBoostContrast SkMatrix.I := by
  cases h : shouldDrawTextAsPaths font (paint.getD defaultPaint) SkMatrix.I with
  | true => simp only [MakeCanonicalized, h, if_true]; rfl
  | false => simp only [MakeCanonicalized, h, Bool.false_eq_true, if_false]; rfl

/-- Claim C6: MakeDefault equals MakeCanonicalized applied to a
default-constructed font with no paint supplied, field by field. -/
theorem makeDefault_eq_canonicalized
    (shouldDrawTextAsPaths : SkFont → SkPaint → SkMatrix → Bool) :
    MakeDefault shouldDrawTextAsPaths
        = MakeCanonicalized shouldDrawTextAsPaths defaultFont none
      ∧ (MakeDefault shouldDrawTextAsPaths).fAutoDescriptor
        = (MakeCanonicalized shouldDrawTextAsPaths defaultFont none).fAutoDescriptor
      ∧ (MakeDefault shouldDrawTextAsPaths).fMaskFilter
        = (MakeCanonicalized shouldDrawTextAsPaths defaultFont none).fMaskFilter
      ∧ (MakeDefault shouldDrawTextAsPaths).fPathEffect
        = (MakeCanonicalized shouldDrawTextAsPaths defaultFont none).fPathEffect
      ∧ (MakeDefault shouldDrawTextAsPaths).fTypeface
        = (MakeCanonicalized shouldDrawTextAsPaths defaultFont none).fTypeface
      ∧ (MakeDefault shouldDrawTextAsPaths).fStrikeToSourceRatio
        = (MakeCanonicalized shouldDrawTextAsPaths defaultFont none).fStrikeToSourceRatio :=
  ⟨rfl, rfl, rfl, rfl, rfl, rfl⟩

/-- Claim C7: MakeMask passes the font, paint, surface properties, flags
and device matrix unmodified into the descriptor, captures the paint's
effects, resolves the typeface, and leaves the strike-to-source ratio at
its default value 1. -/
theorem makeMask_unmodified_inputs_ratio_one
    (font : SkFont) (paint : SkPaint) (props : SkSurfaceProps)
    (flags : SkScalerContextFlags) (deviceMatrix : SkMatrix) :
    (MakeMask font paint props flags deviceMatrix).fAutoDescriptor
        = some { fFont := font, fPaint := paint, fSurfaceProps := props
                 fScalerContextFlags := flags, fDeviceMatrix := deviceMatrix }
      ∧ (MakeMask font paint props flags deviceMatrix).fMaskFilter = paint.fMaskFilter
      ∧ (MakeMask font paint props flags deviceMatrix).fPathEffect = paint.fPathEffect
      ∧ (MakeMask font paint props flags deviceMatrix).fTypeface
        = some font.refTypefaceOrDefault
      ∧ (MakeMask font paint props flags deviceMatrix).fStrikeToSourceRatio = 1
      ∧ (MakeMask font paint props flags deviceMatrix).fStrikeToSourceRatio
        = SkStrikeSpecStorage.init.fStrikeToSourceRatio :=
  ⟨rfl, rfl, rfl, rfl, rfl, rfl⟩

/-- Claim C8: MakeSDFT uses the fixed kNone scaler-context flags, takes the
transformed paint, transformed font and ratio from the external
distance-field policy, and returns the min/max scale range the policy
computes from the original font size and the device matrix. -/
theorem makeSDFT_flags_and_policy
    (initDistanceFieldPaint : SkPaint → SkPaint)
    (initDistanceFieldFont : SkFont → SkMatrix → GrTextContextOptions → SkFont × SkScalar)
    (initDistanceFieldMinMaxScale : SkScalar → SkMatrix → GrTextContextOptions → SkScalar × SkScalar)
    (font : SkFont) (paint : SkPaint) (props : SkSurfaceProps)
    (deviceMatrix : SkMatrix) (options : GrTextContextOptions) :
    (MakeSDFT initDistanceFieldPaint initDistanceFieldFont initDistanceFieldMinMaxScale
        font paint props deviceMatrix options).1.fAutoDescriptor
        = some { fFont := (initDistanceFieldFont font deviceMatrix options).1
                 fPaint := initDistanceFieldPaint paint
                 fSurfaceProps := props
                 fScalerContextFlags := SkScalerContextFlags.kNone
                 fDeviceMatrix := SkMatrix.I }
      ∧ (MakeSDFT initDistanceFieldPaint initDistanceFieldFont initDistanceFieldMinMaxScale
          font paint props deviceMatrix options).1.fStrikeToSourceRatio
        = (initDistanceFieldFont font deviceMatrix options).2
      ∧ (MakeSDFT initDistanceFieldPaint initDistanceFieldFont initDistanceFieldMinMaxScale
          font paint props deviceMatrix options).2.1
        = (initDistanceFieldMinMaxScale font.fSize deviceMatrix options).1
      ∧ (MakeSDFT initDistanceFieldPaint initDistanceFieldFont initDistanceFieldMinMaxScale
          font paint props deviceMatrix options).2.2
        = (initDistanceFieldMinMaxScale font.fSize deviceMatrix options).2 :=
  ⟨rfl, rfl, rfl, rfl⟩

/-- Claim C9 counterexample: the GPU resolver passes only the descriptor to
the cache — two storages that differ in their captured mask filter, path
effect and typeface produce identical cache calls, so those references are
not passed. -/
theorem findOrCreateGrStrike_ignores_effects :
    (SkStrikeSpecStorage.findOrCreateGrStrike
        { MakeMask defaultFont defaultPaint
            { fFlags := 0, fPixelGeometry := SkPixelGeometry.kUnknown }
            SkScalerContextFlags.kNone SkMatrix.I with
          fMaskFilter := some 1, fPathEffect := some 1
          fTypeface := some { fUniqueID := 5, fUnitsPerEm := 100 } }
        (fun desc => desc)).1
      = (SkStrikeSpecStorage.findOrCreateGrStrike
        { MakeMask defaultFont defaultPaint
            { fFlags := 0, fPixelGeometry := SkPixelGeometry.kUnknown }
            SkScalerContextFlags.kNone SkMatrix.I with
          fMaskFilter := some 2, fPathEffect := none, fTypeface := none }
        (fun desc => desc)).1
    ∧ (some 1 : Option SkMaskFilter) ≠ some 2 :=
  ⟨rfl, by decide⟩

/-- Claim C9 (amended): the exclusive and scoped resolvers each make
exactly one cache call carrying the stored descriptor, the captured path
effect and mask filter, and the stored typeface; the GPU resolver makes
exactly one cache call carrying only the stored descriptor; none of the
three changes any field of the storage. -/
theorem resolvers_pass_stored_fields {α β γ : Type} (spec : SkStrikeSpecStorage)
    (cacheExclusive : Option SkDescriptor → SkScalerContextEffects → Option SkTypeface → α)
    (cacheScoped : Option SkDescriptor → SkScalerContextEffects → Option SkTypeface → β)
    (cacheGr : Option SkDescriptor → γ) :
    spec.findOrCreateExclusiveStrike cacheExclusive
        = (cacheExclusive spec.fAutoDescriptor
            { fPathEffect := spec.fPathEffect, fMaskFilter := spec.fMaskFilter }
            spec.fTypeface, spec)
      ∧ spec.findOrCreateScopedStrike cacheScoped
        = (cacheScoped spec.fAutoDescriptor
            { fPathEffect := spec.fPathEffect, fMaskFilter := spec.fMaskFilter }
            spec.fTypeface, spec)
      ∧ spec.findOrCreateGrStrike cacheGr
        = (cacheGr spec.fAutoDescriptor, spec) :=
  ⟨rfl, rfl, rfl⟩

/-- Claim C10: MakeSDFT builds its descriptor at the identity matrix, and
the device matrix influences the result only through the distance-field
policy: whenever the policy returns the same transformed font, ratio and
scale range for two device matrices, the whole MakeSDFT result agrees. -/
theorem makeSDFT_identity_matrix_descriptor
    (initDistanceFieldPaint : SkPaint → SkPaint)
    (initDistanceFieldFont : SkFont → SkMatrix → GrTextContextOptions → SkFont × SkScalar)
    (initDistanceFieldMinMaxScale : SkScalar → SkMatrix → GrTextContextOptions → SkScalar × SkScalar)
    (font : SkFont) (paint : SkPaint) (props : SkSurfaceProps)
    (m1 m2 : SkMatrix) (options : GrTextContextOptions)
    (hf : initDistanceFieldFont font m1 options = initDistanceFieldFont font m2 options)
    (hm : initDistanceFieldMinMaxScale font.fSize m1 options
        = initDistanceFieldMinMaxScale font.fSize m2 options) :
    ((MakeSDFT initDistanceFieldPaint initDistanceFieldFont initDistanceFieldMinMaxScale
        font paint props m1 options).1.fAutoDescriptor.map
          fun desc => desc.fDeviceMatrix) = some SkMatrix.I
      ∧ MakeSDFT initDistanceFieldPaint initDistanceFieldFont initDistanceFieldMinMaxScale
          font paint props m1 options
        = MakeSDFT initDistanceFieldPaint initDistanceFieldFont initDistanceFieldMinMaxScale
          font paint props m2 options := by
  refine ⟨rfl, ?_⟩
  unfold MakeSDFT
  rw [hf, hm]

/-- Witness for the C10 theorem with constant policy functions, the
identity matrix and a doubling matrix. -/
theorem makeSDFT_identity_matrix_descriptor_witness :
    ((fun (f : SkFont) (_ : SkMatrix) (_ : GrTextContextOptions) => (f, (1 : SkScalar)))
          defaultFont SkMatrix.I { fMinDistanceFieldFontSize := 4, fMaxDistanceFieldFontSize := 100 }
        = (fun (f : SkFont) (_ : SkMatrix) (_ : GrTextContextOptions) => (f, (1 : SkScalar)))
          defaultFont { scaleX := 2, skewX := 0, transX := 0, skewY := 0, scaleY := 2, transY := 0 }
          { fMinDistanceFieldFontSize := 4, fMaxDistanceFieldFontSize := 100 })
      ∧ ((fun (s : SkScalar) (_ : SkMatrix) (_ : GrTextContextOptions) => (s, 2 * s))
          defaultFont.fSize SkMatrix.I { fMinDistanceFieldFontSize := 4, fMaxDistanceFieldFontSize := 100 }
        = (fun (s : SkScalar) (_ : SkMatrix) (_ : GrTextContextOptions) => (s, 2 * s))
          defaultFont.fSize { scaleX := 2, skewX := 0, transX := 0, skewY := 0, scaleY := 2, transY := 0 }
          { fMinDistanceFieldFontSize := 4, fMaxDistanceFieldFontSize := 100 })
      ∧ (((MakeSDFT (fun p => p)
            (fun (f : SkFont) (_ : SkMatrix) (_ : GrTextContextOptions) => (f, (1 : SkScalar)))
            (fun (s : SkScalar) (_ : SkMatrix) (_ : GrTextContextOptions) => (s, 2 * s))
            defaultFont defaultPaint { fFlags := 0, fPixelGeometry := SkPixelGeometry.kUnknown }
            SkMatrix.I { fMinDistanceFieldFontSize := 4, fMaxDistanceFieldFontSize := 100 }).1.fAutoDescriptor.map
              fun desc => desc.fDeviceMatrix) = some SkMatrix.I
        ∧ MakeSDFT (fun p => p)
            (fun (f : SkFont) (_ : SkMatrix) (_ : GrTextContextOptions) => (f, (1 : SkScalar)))
            (fun (s : SkScalar) (_ : SkMatrix) (_ : GrTextContextOptions) => (s, 2 * s))
            defaultFont defaultPaint { fFlags := 0, fPixelGeometry := SkPixelGeometry.kUnknown }
            SkMatrix.I { fMinDistanceFieldFontSize := 4, fMaxDistanceFieldFontSize := 100 }
          = MakeSDFT (fun p => p)
            (fun (f : SkFont) (_ : SkMatrix) (_ : GrTextContextOptions) => (f, (1 : SkScalar)))
            (fun (s : SkScalar) (_ : SkMatrix) (_ : GrTextContextOptions) => (s, 2 * s))
            defaultFont defaultPaint { fFlags := 0, fPixelGeometry := SkPixelGeometry.kUnknown }
            { scaleX := 2, skewX := 0, transX := 0, skewY := 0, scaleY := 2, transY := 0 }
            { fMinDistanceFieldFontSize := 4, fMaxDistanceFieldFontSize := 100 }) :=
  ⟨rfl, rfl,
    makeSDFT_identity_matrix_descriptor (fun p => p)
      (fun (f : SkFont) (_ : SkMatrix) (_ : GrTextContextOptions) => (f, (1 : SkScalar)))
      (fun (s : SkScalar) (_ : SkMatrix) (_ : GrTextContextOptions) => (s, 2 * s))
      defaultFont defaultPaint { fFlags := 0, fPixelGeometry := SkPixelGeometry.kUnknown }
      SkMatrix.I { scaleX := 2, skewX := 0, transX := 0, skewY := 0, scaleY := 2, transY := 0 }
      { fMinDistanceFieldFontSize := 4, fMaxDistanceFieldFontSize := 100 } rfl rfl⟩

end Skia
